import Mathlib

/-!
Formal model of the Vigilance-AI drowsiness-detection pipeline.

The per-signal state machines (eye tracker, yawn detector), the alert
dispatcher and the orchestrator's fusion step are embedded as pure Lean
functions over explicit state records.  Frame-level ratio values (EAR, MAR)
and clock readings are rationals; the geometric ratio formulas themselves
(`calculate_ear`, `calculate_mar`) are modelled over the reals, idealizing
the source's floating-point arithmetic.  Landmark regression and the
perspective-n-point pose solve are external collaborators: the per-frame
observation record carries their outputs.
-/

namespace Vigilance

/-- Append to a bounded deque (`collections.deque` with `maxlen = cap`):
push on the right, keep only the last `cap` elements. -/
def pushBounded {α : Type} (cap : ℕ) (xs : List α) (x : α) : List α :=
  let ys := xs ++ [x]
  ys.drop (ys.length - cap)

/-! ## Eye tracker (src/detection/eye_tracker.py) -/

/-- Container for eye-related metrics (`EyeMetrics`). -/
structure EyeMetrics where
  left_ear : ℚ
  right_ear : ℚ
  avg_ear : ℚ
  is_closed : Bool
  closure_duration_frames : ℕ

/-- State of `EyeTracker`: configuration plus the mutable tracking fields. -/
structure EyeTracker where
  ear_threshold : ℚ
  history_size : ℕ
  drowsy_frames_threshold : ℕ
  ear_history : List ℚ
  closed_frame_count : ℕ
  blink_count : ℕ
  is_blinking : Bool

/-- `EyeTracker.__init__`: empty history, zero counters. -/
def EyeTracker.init (ear_threshold : ℚ) (history_size drowsy_frames_threshold : ℕ) :
    EyeTracker :=
  { ear_threshold := ear_threshold
    history_size := history_size
    drowsy_frames_threshold := drowsy_frames_threshold
    ear_history := []
    closed_frame_count := 0
    blink_count := 0
    is_blinking := false }

/-- `EyeTracker.process_eyes`, taking the two per-eye EAR values already
computed by `calculate_ear` (the geometric step is modelled separately):
append the average to the bounded history, then update the closure /
blink state exactly as the source's `if is_closed: ... else: ...` does. -/
def EyeTracker.process_eyes (s : EyeTracker) (left_ear right_ear : ℚ) :
    EyeMetrics × EyeTracker :=
  let avg_ear := (left_ear + right_ear) / 2
  let hist := pushBounded s.history_size s.ear_history avg_ear
  if avg_ear < s.ear_threshold then
    ({ left_ear := left_ear, right_ear := right_ear, avg_ear := avg_ear,
       is_closed := true, closure_duration_frames := s.closed_frame_count + 1 },
     { s with ear_history := hist,
              closed_frame_count := s.closed_frame_count + 1,
              is_blinking := true })
  else
    let blink1 :=
      if s.is_blinking = true ∧ 0 < s.closed_frame_count ∧
          s.closed_frame_count < s.drowsy_frames_threshold
      then s.blink_count + 1 else s.blink_count
    ({ left_ear := left_ear, right_ear := right_ear, avg_ear := avg_ear,
       is_closed := false, closure_duration_frames := 0 },
     { s with ear_history := hist,
              closed_frame_count := 0,
              blink_count := blink1,
              is_blinking := false })

/-- `EyeTracker.is_drowsy`. -/
def EyeTracker.is_drowsy (s : EyeTracker) : Bool :=
  decide (s.drowsy_frames_threshold ≤ s.closed_frame_count)

/-- `EyeTracker.get_drowsiness_score`. -/
def EyeTracker.get_drowsiness_score (s : EyeTracker) : ℚ :=
  if s.ear_history = [] then 0
  else
    let threshold_crossings :=
      s.ear_history.countP (fun e => decide (e < s.ear_threshold))
    let closure_factor :=
      min ((s.closed_frame_count : ℚ) / (s.drowsy_frames_threshold : ℚ)) 1
    let history_score := ((threshold_crossings : ℚ) / (s.ear_history.length : ℚ)) * 50
    let closure_score := closure_factor * 50
    min (history_score + closure_score) 100

/-- Feed a sequence of frames to the eye tracker; each frame is given by its
average EAR (fed as both per-eye values, whose mean is that value). -/
def runEyes (s : EyeTracker) (ears : List ℚ) : EyeTracker :=
  ears.foldl (fun t e => (t.process_eyes e e).2) s

/-! ## Yawn detector (src/detection/yawn_detector.py) -/

/-- Container for yawn-related metrics (`YawnMetrics`). -/
structure YawnMetrics where
  mar : ℚ
  is_yawning : Bool
  yawn_duration_frames : ℕ
  total_yawns : ℕ

/-- State of `YawnDetector`. -/
structure YawnDetector where
  mar_threshold : ℚ
  min_yawn_frames : ℕ
  history_size : ℕ
  consecutive_yawns_alert : ℕ
  mar_history : List ℚ
  yawn_frame_count : ℕ
  total_yawns : ℕ
  is_yawning : Bool
  recent_yawns : List ℕ
  frame_number : ℕ

/-- `YawnDetector.__init__`: empty histories, zero counters. -/
def YawnDetector.init (mar_threshold : ℚ)
    (min_yawn_frames history_size consecutive_yawns_alert : ℕ) : YawnDetector :=
  { mar_threshold := mar_threshold
    min_yawn_frames := min_yawn_frames
    history_size := history_size
    consecutive_yawns_alert := consecutive_yawns_alert
    mar_history := []
    yawn_frame_count := 0
    total_yawns := 0
    is_yawning := false
    recent_yawns := []
    frame_number := 0 }

/-- `YawnDetector.process_mouth`, taking the frame's MAR value already
computed by `calculate_mar`: bump the frame number, append to the bounded
history, then update the yawn state.  A yawn is recorded on the closing
frame when the detector was in the yawning state with at least
`min_yawn_frames` open frames; the recent-event window (`recent_yawns`,
capacity 100) then receives the current frame number.  The new
`is_yawning` uses the already-updated `yawn_frame_count`, as the source
does. -/
def YawnDetector.process_mouth (s : YawnDetector) (mar : ℚ) :
    YawnMetrics × YawnDetector :=
  let frame1 := s.frame_number + 1
  let hist := pushBounded s.history_size s.mar_history mar
  if s.mar_threshold < mar then
    let count1 := s.yawn_frame_count + 1
    let yawning1 := decide (s.min_yawn_frames ≤ count1)
    ({ mar := mar, is_yawning := yawning1, yawn_duration_frames := count1,
       total_yawns := s.total_yawns },
     { s with mar_history := hist, yawn_frame_count := count1,
              is_yawning := yawning1, frame_number := frame1 })
  else
    if s.is_yawning = true ∧ s.min_yawn_frames ≤ s.yawn_frame_count then
      ({ mar := mar, is_yawning := false, yawn_duration_frames := 0,
         total_yawns := s.total_yawns + 1 },
       { s with mar_history := hist, yawn_frame_count := 0,
                total_yawns := s.total_yawns + 1,
                recent_yawns := pushBounded 100 s.recent_yawns frame1,
                is_yawning := false, frame_number := frame1 })
    else
      ({ mar := mar, is_yawning := false, yawn_duration_frames := 0,
         total_yawns := s.total_yawns },
       { s with mar_history := hist, yawn_frame_count := 0,
                is_yawning := false, frame_number := frame1 })

/-- `YawnDetector.is_fatigue_indicated`: at least `consecutive_yawns_alert`
recorded yawns whose frame index is strictly within 90 frames of the
current frame number. -/
def YawnDetector.is_fatigue_indicated (s : YawnDetector) : Bool :=
  decide (s.consecutive_yawns_alert ≤
    s.recent_yawns.countP (fun f : ℕ => decide ((s.frame_number : ℤ) - (f : ℤ) < 90)))

/-- Feed a sequence of frames (MAR values) to the yawn detector. -/
def runMouth (s : YawnDetector) (mars : List ℚ) : YawnDetector :=
  mars.foldl (fun t m => (t.process_mouth m).2) s

/-! ## Alert system (src/core/alert_system.py) -/

/-- State of `AlertSystem`.  `sound_enabled` / `visual_enabled` are the
configuration flags; `is_alerting`, `last_alert_time`, `alert_count` are
the mutable tracking fields.  Wall-clock readings are rationals and are
passed explicitly to `trigger_alert`. -/
structure AlertSystem where
  sound_enabled : Bool
  visual_enabled : Bool
  cooldown_seconds : ℚ
  is_alerting : Bool
  last_alert_time : ℚ
  alert_count : ℕ

/-- Outcome of a `trigger_alert` call: the boolean return value, and
whether a background playback thread was started by the call. -/
structure TriggerOutcome where
  triggered : Bool
  thread_started : Bool

/-- `AlertSystem.trigger_alert` at clock reading `now` (the `alert_type`
argument is only logged by the source and is not modelled): fail on
cooldown, fail when already alerting, otherwise record the timestamp,
increment the count and (when sound is enabled) start the background
playback thread. -/
def AlertSystem.trigger_alert (s : AlertSystem) (now : ℚ) :
    TriggerOutcome × AlertSystem :=
  if now - s.last_alert_time < s.cooldown_seconds then
    ({ triggered := false, thread_started := false }, s)
  else if s.is_alerting = true then
    ({ triggered := false, thread_started := false }, s)
  else
    ({ triggered := true, thread_started := s.sound_enabled },
     { s with is_alerting := true, last_alert_time := now,
              alert_count := s.alert_count + 1 })

/-- `AlertSystem.stop_alert`: set the stop event and clear `is_alerting`;
idempotent when already idle. -/
def AlertSystem.stop_alert (s : AlertSystem) : AlertSystem :=
  if s.is_alerting = true then { s with is_alerting := false } else s

/-! ## Ratio geometry (`calculate_ear`, `calculate_mar`)

The geometric formulas are modelled over the reals (idealizing the
source's floating-point arithmetic), with `scipy.spatial.distance.euclidean`
as the planar Euclidean distance. -/

/-- Euclidean distance between two 2-D points. -/
noncomputable def euclidean (p q : ℝ × ℝ) : ℝ :=
  Real.sqrt ((p.1 - q.1) ^ 2 + (p.2 - q.2) ^ 2)

/-- `EyeTracker.calculate_ear` on the six eye landmarks: the two vertical
distances over twice the horizontal distance, with the zero-horizontal
guard returning `0.0`. -/
noncomputable def calculate_ear (eye : Fin 6 → ℝ × ℝ) : ℝ :=
  let A := euclidean (eye 1) (eye 5)
  let B := euclidean (eye 2) (eye 4)
  let C := euclidean (eye 0) (eye 3)
  if C = 0 then 0 else (A + B) / (2 * C)

/-- `YawnDetector.calculate_mar` on the mouth landmark list (outer 12
points then inner 8): the inner-mouth formula when at least 20 points are
given, the outer-mouth fallback otherwise, with the shared
zero-horizontal guard returning `0.0`.  Indexing uses `getD` with a
default point, exercised only in range by the source's 12- or 20-point
inputs. -/
noncomputable def calculate_mar (m : List (ℝ × ℝ)) : ℝ :=
  let ABC :=
    if 20 ≤ m.length then
      (euclidean (m.getD 14 (0, 0)) (m.getD 18 (0, 0)),
       euclidean (m.getD 15 (0, 0)) (m.getD 17 (0, 0)),
       euclidean (m.getD 12 (0, 0)) (m.getD 16 (0, 0)))
    else
      (euclidean (m.getD 2 (0, 0)) (m.getD 10 (0, 0)),
       euclidean (m.getD 4 (0, 0)) (m.getD 8 (0, 0)),
       euclidean (m.getD 0 (0, 0)) (m.getD 6 (0, 0)))
  if ABC.2.2 = 0 then 0 else (ABC.1 + ABC.2.1) / (2 * ABC.2.2)

/-- The horizontal mouth distance whose vanishing triggers the `C == 0`
guard of `calculate_mar` (inner corners 60/64 for 20-point input, outer
corners 48/54 otherwise). -/
noncomputable def marHorizontal (m : List (ℝ × ℝ)) : ℝ :=
  if 20 ≤ m.length then euclidean (m.getD 12 (0, 0)) (m.getD 16 (0, 0))
  else euclidean (m.getD 0 (0, 0)) (m.getD 6 (0, 0))

/-! ## Orchestrator (src/core/drowsiness_detector.py) -/

/-- Head-pose metrics as produced by `HeadPoseEstimator.estimate_pose`
(the perspective-n-point solve is an external numeric collaborator, so
these arrive as part of the per-frame observation). -/
structure HeadMetrics where
  pitch : ℚ
  yaw : ℚ
  roll : ℚ
  is_head_down : Bool
  is_head_tilted : Bool

/-- Mutable state of `HeadPoseEstimator`: the frame dimensions backing
the synthetic camera matrix (the matrix itself is derived from them). -/
structure HeadPoseEstimator where
  pitch_threshold : ℚ
  roll_threshold : ℚ
  frame_width : ℕ
  frame_height : ℕ

/-- `HeadPoseEstimator.set_frame_size`: update the dimensions when they
changed. -/
def HeadPoseEstimator.set_frame_size (h : HeadPoseEstimator) (w ht : ℕ) :
    HeadPoseEstimator :=
  if w ≠ h.frame_width ∨ ht ≠ h.frame_height then
    { h with frame_width := w, frame_height := ht }
  else h

/-- Per-frame observation delivered to `process_frame` when a face was
found: the per-eye EARs and the MAR computed by the ratio geometry from
the frame's landmarks, the head-pose solve's output, and the frame
dimensions. -/
structure FrameObs where
  left_ear : ℚ
  right_ear : ℚ
  mar : ℚ
  head : HeadMetrics
  frame_width : ℕ
  frame_height : ℕ

/-- `DetectionResult` (timing and raw-landmark fields are not modelled). -/
structure DetectionResult where
  face_detected : Bool
  ear : ℚ
  left_ear : ℚ
  right_ear : ℚ
  eyes_closed : Bool
  blink_count : ℕ
  mar : ℚ
  is_yawning : Bool
  yawn_count : ℕ
  pitch : ℚ
  yaw : ℚ
  roll : ℚ
  head_down : Bool
  head_tilted : Bool
  drowsiness_score : ℚ
  is_drowsy : Bool
  is_fatigued : Bool

/-- The dataclass defaults of `DetectionResult`. -/
def defaultResult : DetectionResult :=
  { face_detected := false, ear := 0, left_ear := 0, right_ear := 0,
    eyes_closed := false, blink_count := 0, mar := 0, is_yawning := false,
    yawn_count := 0, pitch := 0, yaw := 0, roll := 0, head_down := false,
    head_tilted := false, drowsiness_score := 0, is_drowsy := false,
    is_fatigued := false }

/-- State of `DrowsinessDetector`: the owned component states plus the
frame counter. -/
structure DrowsinessDetector where
  eye_tracker : EyeTracker
  yawn_detector : YawnDetector
  head_pose : HeadPoseEstimator
  alert_system : AlertSystem
  frame_count : ℕ

/-- `DrowsinessDetector.process_frame` at clock reading `now`.  `none`
means the landmark detector found no face: the default result is returned
early and only the frame counter advances.  Otherwise the eye, mouth and
head signals are processed, the drowsiness score is fused, and the alert
policy runs. -/
def DrowsinessDetector.process_frame (d : DrowsinessDetector)
    (obs : Option FrameObs) (now : ℚ) : DetectionResult × DrowsinessDetector :=
  let d0 := { d with frame_count := d.frame_count + 1 }
  match obs with
  | none => (defaultResult, d0)
  | some o =>
    let eyeOut := d0.eye_tracker.process_eyes o.left_ear o.right_ear
    let yawnOut := d0.yawn_detector.process_mouth o.mar
    let head1 := d0.head_pose.set_frame_size o.frame_width o.frame_height
    let hm := o.head
    let eye_drowsiness := eyeOut.2.get_drowsiness_score
    let yawn_fatigue : ℚ := if yawnOut.2.is_fatigue_indicated = true then 30 else 0
    let head_drowsiness : ℚ := if hm.is_head_down = true then 20 else 0
    let score := min (eye_drowsiness + yawn_fatigue + head_drowsiness) 100
    let drowsy := eyeOut.2.is_drowsy || hm.is_head_down
    let fatigued := yawnOut.2.is_fatigue_indicated
    let alert1 :=
      if drowsy = true then (d0.alert_system.trigger_alert now).2
      else if fatigued = true then (d0.alert_system.trigger_alert now).2
      else if !eyeOut.1.is_closed && !yawnOut.1.is_yawning then
        d0.alert_system.stop_alert
      else d0.alert_system
    ({ face_detected := true,
       ear := eyeOut.1.avg_ear, left_ear := eyeOut.1.left_ear,
       right_ear := eyeOut.1.right_ear, eyes_closed := eyeOut.1.is_closed,
       blink_count := eyeOut.2.blink_count,
       mar := yawnOut.1.mar, is_yawning := yawnOut.1.is_yawning,
       yawn_count := yawnOut.1.total_yawns,
       pitch := hm.pitch, yaw := hm.yaw, roll := hm.roll,
       head_down := hm.is_head_down, head_tilted := hm.is_head_tilted,
       drowsiness_score := score, is_drowsy := drowsy, is_fatigued := fatigued },
     { d0 with eye_tracker := eyeOut.2, yawn_detector := yawnOut.2,
               head_pose := head1, alert_system := alert1 })

/-! ## Eye-tracker lemmas -/

lemma process_eyes_closed (s : EyeTracker) (e : ℚ) (h : e < s.ear_threshold) :
    (s.process_eyes e e).2 =
      { s with ear_history := pushBounded s.history_size s.ear_history ((e + e) / 2),
               closed_frame_count := s.closed_frame_count + 1,
               is_blinking := true } := by
  have h2 : (e + e) / 2 = e := by ring
  have havg : (e + e) / 2 < s.ear_threshold := by rw [h2]; exact h
  simp [EyeTracker.process_eyes, havg, h]

lemma process_eyes_open (s : EyeTracker) (e : ℚ) (h : ¬ e < s.ear_threshold) :
    (s.process_eyes e e).2 =
      { s with ear_history := pushBounded s.history_size s.ear_history ((e + e) / 2),
               closed_frame_count := 0,
               blink_count :=
                 if s.is_blinking = true ∧ 0 < s.closed_frame_count ∧
                     s.closed_frame_count < s.drowsy_frames_threshold
                 then s.blink_count + 1 else s.blink_count,
               is_blinking := false } := by
  have h2 : (e + e) / 2 = e := by ring
  have havg : ¬ (e + e) / 2 < s.ear_threshold := by rw [h2]; exact h
  simp [EyeTracker.process_eyes, havg, h]

lemma runEyes_cons (s : EyeTracker) (e : ℚ) (rest : List ℚ) :
    runEyes s (e :: rest) = runEyes (s.process_eyes e e).2 rest := rfl

/-- Effect of an all-closed run on the tracker: the closure counter grows
by the run length, the blink counter and configuration are untouched, and
after a nonempty run the tracker remembers the last frame was closed. -/
lemma runEyes_all_closed : ∀ (ears : List ℚ) (s : EyeTracker),
    (∀ x ∈ ears, x < s.ear_threshold) →
    (runEyes s ears).ear_threshold = s.ear_threshold ∧
    (runEyes s ears).drowsy_frames_threshold = s.drowsy_frames_threshold ∧
    (runEyes s ears).closed_frame_count = s.closed_frame_count + ears.length ∧
    (runEyes s ears).blink_count = s.blink_count ∧
    (ears ≠ [] → (runEyes s ears).is_blinking = true) := by
  intro ears
  induction ears with
  | nil => intro s _; simp [runEyes]
  | cons e rest ih =>
    intro s h
    have he : e < s.ear_threshold := h e (by simp)
    rw [runEyes_cons, process_eyes_closed s e he]
    set t : EyeTracker :=
      { s with ear_history := pushBounded s.history_size s.ear_history ((e + e) / 2),
               closed_frame_count := s.closed_frame_count + 1,
               is_blinking := true } with ht
    have hthr : t.ear_threshold = s.ear_threshold := by rw [ht]
    have hdft : t.drowsy_frames_threshold = s.drowsy_frames_threshold := by rw [ht]
    have hcnt : t.closed_frame_count = s.closed_frame_count + 1 := by rw [ht]
    have hblk : t.blink_count = s.blink_count := by rw [ht]
    have hib : t.is_blinking = true := by rw [ht]
    have hmem : ∀ x ∈ rest, x < t.ear_threshold := by
      intro x hx; rw [hthr]; exact h x (List.mem_cons_of_mem e hx)
    obtain ⟨h1, h2, h3, h4, h5⟩ := ih t hmem
    refine ⟨h1.trans hthr, h2.trans hdft, ?_, h4.trans hblk, fun _ => ?_⟩
    · rw [h3, hcnt]; simp [List.length_cons]; omega
    · by_cases hnil : rest = []
      · subst hnil; simp only [runEyes, List.foldl_nil]
      · exact h5 hnil

/-- Concrete eye tracker used to instantiate the eye-tracker theorems:
threshold 1, history capacity 30, drowsy threshold 2 frames. -/
abbrev eyeW : EyeTracker := EyeTracker.init 1 30 2

/-- C3: for every eye-tracker state and sequence of processed frames, a
continuous closure (average EAR below the threshold) of at least
`drowsy_frames_threshold` frames makes `is_drowsy` true and keeps it true
as long as the closure continues (every continuation of length ≥ the
threshold still reports drowsy); the first open frame makes it false
again; and `is_drowsy` holds exactly when
`closed_frame_count ≥ drowsy_frames_threshold`. -/
theorem C3_sustained_closure_drowsy (s : EyeTracker) (ears : List ℚ) (e : ℚ)
    (hc : ∀ x ∈ ears, x < s.ear_threshold)
    (hlen : s.drowsy_frames_threshold ≤ ears.length)
    (ho : ¬ e < s.ear_threshold)
    (hpos : 0 < s.drowsy_frames_threshold) :
    (∀ k, s.drowsy_frames_threshold ≤ k →
        (runEyes s (ears.take k)).is_drowsy = true) ∧
    (runEyes s ears).is_drowsy = true ∧
    ((runEyes s ears).process_eyes e e).2.is_drowsy = false ∧
    (∀ t : EyeTracker, t.is_drowsy = true ↔
        t.drowsy_frames_threshold ≤ t.closed_frame_count) := by
  have hdec : ∀ t : EyeTracker, t.is_drowsy = true ↔
      t.drowsy_frames_threshold ≤ t.closed_frame_count := by
    intro t; simp [EyeTracker.is_drowsy]
  refine ⟨?_, ?_, ?_, hdec⟩
  · intro k hk
    obtain ⟨h1, h2, h3, h4, h5⟩ :=
      runEyes_all_closed (ears.take k) s
        (fun x hx => hc x (List.take_subset _ _ hx))
    rw [hdec, h3, h2, List.length_take]
    omega
  · obtain ⟨h1, h2, h3, h4, h5⟩ := runEyes_all_closed ears s hc
    rw [hdec, h3, h2]
    omega
  · obtain ⟨h1, h2, h3, h4, h5⟩ := runEyes_all_closed ears s hc
    have ho2 : ¬ e < (runEyes s ears).ear_threshold := by rw [h1]; exact ho
    rw [process_eyes_open _ e ho2]
    simp only [EyeTracker.is_drowsy, decide_eq_false_iff_not]
    rw [h2]
    omega

/-- Witness for C3 at a concrete closed-closed-open run. -/
theorem C3_sustained_closure_drowsy_w :
    (∀ x ∈ ([0, 0] : List ℚ), x < eyeW.ear_threshold) ∧
    eyeW.drowsy_frames_threshold ≤ ([0, 0] : List ℚ).length ∧
    (¬ (2 : ℚ) < eyeW.ear_threshold) ∧
    0 < eyeW.drowsy_frames_threshold ∧
    (runEyes eyeW [0, 0]).is_drowsy = true ∧
    ((runEyes eyeW [0, 0]).process_eyes 2 2).2.is_drowsy = false :=
  ⟨by decide, by decide, by decide, by decide,
   (C3_sustained_closure_drowsy eyeW [0, 0] 2 (by decide) (by decide)
     (by decide) (by decide)).2.1,
   (C3_sustained_closure_drowsy eyeW [0, 0] 2 (by decide) (by decide)
     (by decide) (by decide)).2.2.1⟩

/-- C4: starting a closure (the counter is at 0), a run of closed frames
of nonzero length strictly below `drowsy_frames_threshold` followed by an
open frame increments `blink_count` by exactly 1, resets
`closed_frame_count` to 0 on the open frame, and `is_drowsy` is never
true — neither during the closure nor after reopening. -/
theorem C4_short_closure_blink (s : EyeTracker) (ears : List ℚ) (e : ℚ)
    (h0 : s.closed_frame_count = 0)
    (hc : ∀ x ∈ ears, x < s.ear_threshold)
    (hne : ears ≠ [])
    (hshort : ears.length < s.drowsy_frames_threshold)
    (ho : ¬ e < s.ear_threshold) :
    ((runEyes s ears).process_eyes e e).2.blink_count = s.blink_count + 1 ∧
    ((runEyes s ears).process_eyes e e).2.closed_frame_count = 0 ∧
    ((runEyes s ears).process_eyes e e).2.is_drowsy = false ∧
    (∀ k, (runEyes s (ears.take k)).is_drowsy = false) := by
  obtain ⟨h1, h2, h3, h4, h5⟩ := runEyes_all_closed ears s hc
  have hib := h5 hne
  have ho2 : ¬ e < (runEyes s ears).ear_threshold := by rw [h1]; exact ho
  have hlen1 : 1 ≤ ears.length := by
    cases ears with
    | nil => exact absurd rfl hne
    | cons a l => simp
  have hcond : (runEyes s ears).is_blinking = true ∧
      0 < (runEyes s ears).closed_frame_count ∧
      (runEyes s ears).closed_frame_count <
        (runEyes s ears).drowsy_frames_threshold := by
    refine ⟨hib, ?_, ?_⟩
    · rw [h3, h0]; omega
    · rw [h3, h2, h0]; omega
  rw [process_eyes_open _ e ho2]
  refine ⟨?_, rfl, ?_, ?_⟩
  · simp only [if_pos hcond]
    rw [h4]
  · simp only [EyeTracker.is_drowsy, decide_eq_false_iff_not]
    rw [h2]
    omega
  · intro k
    obtain ⟨g1, g2, g3, g4, g5⟩ :=
      runEyes_all_closed (ears.take k) s
        (fun x hx => hc x (List.take_subset _ _ hx))
    simp only [EyeTracker.is_drowsy, decide_eq_false_iff_not]
    rw [g3, g2, h0, List.length_take]
    omega

/-- Witness for C4 at a concrete one-frame closure followed by reopening. -/
theorem C4_short_closure_blink_w :
    eyeW.closed_frame_count = 0 ∧
    (∀ x ∈ ([0] : List ℚ), x < eyeW.ear_threshold) ∧
    (([0] : List ℚ) ≠ []) ∧
    ([0] : List ℚ).length < eyeW.drowsy_frames_threshold ∧
    (¬ (2 : ℚ) < eyeW.ear_threshold) ∧
    ((runEyes eyeW [0]).process_eyes 2 2).2.blink_count = eyeW.blink_count + 1 ∧
    ((runEyes eyeW [0]).process_eyes 2 2).2.closed_frame_count = 0 ∧
    ((runEyes eyeW [0]).process_eyes 2 2).2.is_drowsy = false :=
  ⟨by decide, by decide, by decide, by decide, by decide,
   (C4_short_closure_blink eyeW [0] 2 (by decide) (by decide) (by decide)
     (by decide) (by decide)).1,
   (C4_short_closure_blink eyeW [0] 2 (by decide) (by decide) (by decide)
     (by decide) (by decide)).2.1,
   (C4_short_closure_blink eyeW [0] 2 (by decide) (by decide) (by decide)
     (by decide) (by decide)).2.2.1⟩

/-- C8: for every eye-tracker state with a nonempty history,
`get_drowsiness_score` equals 50 times the fraction of history entries
below the threshold plus 50 times `min(closed_frame_count /
drowsy_frames_threshold, 1)` (the outer clamp at 100 never bites), and
for every state the score lies in [0, 100]. -/
theorem C8_score_formula (s : EyeTracker) :
    (s.ear_history ≠ [] →
      s.get_drowsiness_score =
        ((s.ear_history.countP (fun e => decide (e < s.ear_threshold)) : ℚ) /
            (s.ear_history.length : ℚ)) * 50 +
          min ((s.closed_frame_count : ℚ) / (s.drowsy_frames_threshold : ℚ)) 1 * 50) ∧
    0 ≤ s.get_drowsiness_score ∧ s.get_drowsiness_score ≤ 100 := by
  have hkey : ∀ hne : s.ear_history ≠ [],
      ((s.ear_history.countP (fun e => decide (e < s.ear_threshold)) : ℚ) /
          (s.ear_history.length : ℚ)) * 50 +
        min ((s.closed_frame_count : ℚ) / (s.drowsy_frames_threshold : ℚ)) 1 * 50
        ≤ 100 := by
    intro hne
    have hlen : 0 < (s.ear_history.length : ℚ) := by
      have h := List.length_pos.mpr hne
      exact_mod_cast h
    have hcle : ((s.ear_history.countP (fun e => decide (e < s.ear_threshold)) : ℕ) : ℚ) ≤
        (s.ear_history.length : ℚ) := by
      exact_mod_cast List.countP_le_length _
    have hfrac : ((s.ear_history.countP (fun e => decide (e < s.ear_threshold)) : ℕ) : ℚ) /
        (s.ear_history.length : ℚ) ≤ 1 := by
      rw [div_le_one hlen]; exact hcle
    have hmin : min ((s.closed_frame_count : ℚ) / (s.drowsy_frames_threshold : ℚ)) 1 ≤ 1 :=
      min_le_right _ _
    nlinarith [hfrac, hmin]
  have hnonneg : ∀ hne : s.ear_history ≠ [],
      0 ≤ ((s.ear_history.countP (fun e => decide (e < s.ear_threshold)) : ℚ) /
          (s.ear_history.length : ℚ)) * 50 +
        min ((s.closed_frame_count : ℚ) / (s.drowsy_frames_threshold : ℚ)) 1 * 50 := by
    intro hne
    have h1 : (0 : ℚ) ≤ ((s.ear_history.countP (fun e => decide (e < s.ear_threshold)) : ℕ) : ℚ) /
        (s.ear_history.length : ℚ) := by positivity
    have h2 : (0 : ℚ) ≤ min ((s.closed_frame_count : ℚ) / (s.drowsy_frames_threshold : ℚ)) 1 :=
      le_min (by positivity) (by norm_num)
    nlinarith [h1, h2]
  refine ⟨?_, ?_, ?_⟩
  · intro hne
    unfold EyeTracker.get_drowsiness_score
    rw [if_neg hne]
    exact min_eq_left (hkey hne)
  · unfold EyeTracker.get_drowsiness_score
    by_cases hne : s.ear_history = []
    · rw [if_pos hne]
    · rw [if_neg hne]
      exact le_min (hnonneg hne) (by norm_num)
  · unfold EyeTracker.get_drowsiness_score
    by_cases hne : s.ear_history = []
    · rw [if_pos hne]; norm_num
    · rw [if_neg hne]
      exact min_le_right _ _

/-- Concrete eye-tracker state with a nonempty history instantiating C8. -/
abbrev eyeC8 : EyeTracker :=
  { ear_threshold := 1, history_size := 30, drowsy_frames_threshold := 2,
    ear_history := [0, 2], closed_frame_count := 1, blink_count := 0,
    is_blinking := true }

/-- Witness for C8 at a concrete nonempty-history state. -/
theorem C8_score_formula_w :
    eyeC8.ear_history ≠ [] ∧
    (eyeC8.get_drowsiness_score =
        ((eyeC8.ear_history.countP (fun e => decide (e < eyeC8.ear_threshold)) : ℚ) /
            (eyeC8.ear_history.length : ℚ)) * 50 +
          min ((eyeC8.closed_frame_count : ℚ) / (eyeC8.drowsy_frames_threshold : ℚ)) 1 * 50) ∧
    0 ≤ eyeC8.get_drowsiness_score ∧ eyeC8.get_drowsiness_score ≤ 100 :=
  ⟨by decide, (C8_score_formula eyeC8).1 (by decide),
   (C8_score_formula eyeC8).2.1, (C8_score_formula eyeC8).2.2⟩

/-- C10: with an empty EAR history (freshly constructed or freshly reset
tracker, before any frame), `get_drowsiness_score` returns exactly 0. -/
theorem C10_empty_history_score_zero (s : EyeTracker) (h : s.ear_history = []) :
    s.get_drowsiness_score = 0 := by
  unfold EyeTracker.get_drowsiness_score
  rw [if_pos h]

/-- Witness for C10 at a freshly constructed tracker. -/
theorem C10_empty_history_score_zero_w :
    (EyeTracker.init 1 30 2).ear_history = [] ∧
    (EyeTracker.init 1 30 2).get_drowsiness_score = 0 :=
  ⟨rfl, C10_empty_history_score_zero (EyeTracker.init 1 30 2) rfl⟩

/-! ## Yawn-detector lemmas -/

lemma process_mouth_open (s : YawnDetector) (m : ℚ) (h : s.mar_threshold < m) :
    (s.process_mouth m).2 =
      { s with mar_history := pushBounded s.history_size s.mar_history m,
               yawn_frame_count := s.yawn_frame_count + 1,
               is_yawning := decide (s.min_yawn_frames ≤ s.yawn_frame_count + 1),
               frame_number := s.frame_number + 1 } := by
  simp [YawnDetector.process_mouth, h]

lemma process_mouth_close_yawn (s : YawnDetector) (m : ℚ)
    (h : ¬ s.mar_threshold < m) (hy : s.is_yawning = true)
    (hc : s.min_yawn_frames ≤ s.yawn_frame_count) :
    (s.process_mouth m).2 =
      { s with mar_history := pushBounded s.history_size s.mar_history m,
               yawn_frame_count := 0,
               total_yawns := s.total_yawns + 1,
               recent_yawns := pushBounded 100 s.recent_yawns (s.frame_number + 1),
               is_yawning := false,
               frame_number := s.frame_number + 1 } := by
  simp [YawnDetector.process_mouth, h, hy, hc]

lemma process_mouth_close_short (s : YawnDetector) (m : ℚ)
    (h : ¬ s.mar_threshold < m)
    (hno : ¬ (s.is_yawning = true ∧ s.min_yawn_frames ≤ s.yawn_frame_count)) :
    (s.process_mouth m).2 =
      { s with mar_history := pushBounded s.history_size s.mar_history m,
               yawn_frame_count := 0,
               is_yawning := false,
               frame_number := s.frame_number + 1 } := by
  simp only [YawnDetector.process_mouth, if_neg h, if_neg hno]

lemma runMouth_cons (s : YawnDetector) (m : ℚ) (rest : List ℚ) :
    runMouth s (m :: rest) = runMouth (s.process_mouth m).2 rest := rfl

/-- Effect of an all-open run on the yawn detector: the open-frame counter
grows by the run length, no yawn is recorded, the recent-event window is
untouched, the frame number advances, and after a nonempty run
`is_yawning` reflects whether the updated counter has reached
`min_yawn_frames`. -/
lemma runMouth_all_open : ∀ (mars : List ℚ) (s : YawnDetector),
    (∀ x ∈ mars, s.mar_threshold < x) →
    (runMouth s mars).mar_threshold = s.mar_threshold ∧
    (runMouth s mars).min_yawn_frames = s.min_yawn_frames ∧
    (runMouth s mars).yawn_frame_count = s.yawn_frame_count + mars.length ∧
    (runMouth s mars).total_yawns = s.total_yawns ∧
    (runMouth s mars).recent_yawns = s.recent_yawns ∧
    (runMouth s mars).frame_number = s.frame_number + mars.length ∧
    (mars ≠ [] → (runMouth s mars).is_yawning =
        decide (s.min_yawn_frames ≤ s.yawn_frame_count + mars.length)) := by
  intro mars
  induction mars with
  | nil => intro s _; simp [runMouth]
  | cons m rest ih =>
    intro s h
    have hm : s.mar_threshold < m := h m (by simp)
    rw [runMouth_cons, process_mouth_open s m hm]
    set t : YawnDetector :=
      { s with mar_history := pushBounded s.history_size s.mar_history m,
               yawn_frame_count := s.yawn_frame_count + 1,
               is_yawning := decide (s.min_yawn_frames ≤ s.yawn_frame_count + 1),
               frame_number := s.frame_number + 1 } with ht
    have hthr : t.mar_threshold = s.mar_threshold := by rw [ht]
    have hmin : t.min_yawn_frames = s.min_yawn_frames := by rw [ht]
    have hcnt : t.yawn_frame_count = s.yawn_frame_count + 1 := by rw [ht]
    have htot : t.total_yawns = s.total_yawns := by rw [ht]
    have hrec : t.recent_yawns = s.recent_yawns := by rw [ht]
    have hfr : t.frame_number = s.frame_number + 1 := by rw [ht]
    have hiy : t.is_yawning = decide (s.min_yawn_frames ≤ s.yawn_frame_count + 1) := by
      rw [ht]
    have hmem : ∀ x ∈ rest, t.mar_threshold < x := by
      intro x hx; rw [hthr]; exact h x (List.mem_cons_of_mem m hx)
    obtain ⟨h1, h2, h3, h4, h5, h6, h7⟩ := ih t hmem
    refine ⟨h1.trans hthr, h2.trans hmin, ?_, h4.trans htot, h5.trans hrec, ?_,
      fun _ => ?_⟩
    · rw [h3, hcnt]; simp [List.length_cons]; omega
    · rw [h6, hfr]; simp [List.length_cons]; omega
    · by_cases hnil : rest = []
      · subst hnil
        simp only [runMouth, List.foldl_nil]
        simp
      · rw [h7 hnil, hmin, hcnt]
        simp [List.length_cons]
        constructor <;> (intro h9; omega)

/-- C5: starting an open-mouth episode (the counter is at 0), a run of
open frames (MAR above the threshold) shorter than `min_yawn_frames`
followed by a closed frame never increments `total_yawns` (neither during
the episode nor on close) and leaves the recent-event window untouched;
a run of at least `min_yawn_frames` open frames followed by a closed
frame increments `total_yawns` by exactly 1 and records the closing frame
number in the recent-event window; the open-frame counter resets to 0 on
the closed frame. -/
theorem C5_yawn_debounce (s : YawnDetector) (mars : List ℚ) (m : ℚ)
    (h0 : s.yawn_frame_count = 0)
    (hopen : ∀ x ∈ mars, s.mar_threshold < x)
    (hne : mars ≠ [])
    (hclose : ¬ s.mar_threshold < m) :
    (mars.length < s.min_yawn_frames →
      ((runMouth s mars).process_mouth m).2.total_yawns = s.total_yawns ∧
      ((runMouth s mars).process_mouth m).2.recent_yawns = s.recent_yawns) ∧
    (s.min_yawn_frames ≤ mars.length →
      ((runMouth s mars).process_mouth m).2.total_yawns = s.total_yawns + 1 ∧
      ((runMouth s mars).process_mouth m).2.recent_yawns =
        pushBounded 100 s.recent_yawns (s.frame_number + mars.length + 1)) ∧
    ((runMouth s mars).process_mouth m).2.yawn_frame_count = 0 ∧
    (∀ k, (runMouth s (mars.take k)).total_yawns = s.total_yawns) := by
  obtain ⟨g1, g2, g3, g4, g5, g6, g7⟩ := runMouth_all_open mars s hopen
  have hclose2 : ¬ (runMouth s mars).mar_threshold < m := by rw [g1]; exact hclose
  have hcount : (runMouth s mars).yawn_frame_count = mars.length := by
    rw [g3, h0]; omega
  have hyawn : (runMouth s mars).is_yawning =
      decide (s.min_yawn_frames ≤ mars.length) := by
    rw [g7 hne, h0]; simp
  have htake : ∀ k, (runMouth s (mars.take k)).total_yawns = s.total_yawns := by
    intro k
    obtain ⟨t1, t2, t3, t4, t5, t6, t7⟩ :=
      runMouth_all_open (mars.take k) s
        (fun x hx => hopen x (List.take_subset _ _ hx))
    exact t4
  by_cases hlen : s.min_yawn_frames ≤ mars.length
  · have hy : (runMouth s mars).is_yawning = true := by
      rw [hyawn]; simpa using hlen
    have hc : (runMouth s mars).min_yawn_frames ≤
        (runMouth s mars).yawn_frame_count := by
      rw [g2, hcount]; exact hlen
    rw [process_mouth_close_yawn _ m hclose2 hy hc]
    refine ⟨fun hcontra => absurd hlen (by omega), fun _ => ⟨?_, ?_⟩, rfl, htake⟩
    · simp [g4]
    · simp [g5, g6]
  · have hno : ¬ ((runMouth s mars).is_yawning = true ∧
        (runMouth s mars).min_yawn_frames ≤ (runMouth s mars).yawn_frame_count) := by
      rw [hyawn, g2, hcount]
      simp
      omega
    rw [process_mouth_close_short _ m hclose2 hno]
    refine ⟨fun _ => ⟨?_, ?_⟩, fun hcontra => absurd hcontra hlen, rfl, htake⟩
    · simp [g4]
    · simp [g5]

/-- Concrete yawn detector (threshold 1, minimum 2 open frames, history
30, alert threshold 3) instantiating the yawn theorems. -/
abbrev yawnW : YawnDetector := YawnDetector.init 1 2 30 3

/-- Witness for C5 at a concrete two-open-frames-then-close episode. -/
theorem C5_yawn_debounce_w :
    yawnW.yawn_frame_count = 0 ∧
    (∀ x ∈ ([2, 2] : List ℚ), yawnW.mar_threshold < x) ∧
    (([2, 2] : List ℚ) ≠ []) ∧
    (¬ yawnW.mar_threshold < 0) ∧
    yawnW.min_yawn_frames ≤ ([2, 2] : List ℚ).length ∧
    ((runMouth yawnW [2, 2]).process_mouth 0).2.total_yawns = yawnW.total_yawns + 1 ∧
    ((runMouth yawnW [2, 2]).process_mouth 0).2.recent_yawns =
      pushBounded 100 yawnW.recent_yawns (yawnW.frame_number + ([2, 2] : List ℚ).length + 1) ∧
    ((runMouth yawnW [2, 2]).process_mouth 0).2.yawn_frame_count = 0 :=
  ⟨by decide, by decide, by decide, by decide, by decide,
   ((C5_yawn_debounce yawnW [2, 2] 0 (by decide) (by decide) (by decide)
     (by decide)).2.1 (by decide)).1,
   ((C5_yawn_debounce yawnW [2, 2] 0 (by decide) (by decide) (by decide)
     (by decide)).2.1 (by decide)).2,
   (C5_yawn_debounce yawnW [2, 2] 0 (by decide) (by decide) (by decide)
     (by decide)).2.2.1⟩

/-- C6: `is_fatigue_indicated` returns true exactly when at least
`consecutive_yawns_alert` recorded yawn events lie strictly within the
trailing 90-frame window of the current frame number; once every recorded
yawn has aged out of that window it returns false again. -/
theorem C6_fatigue_window (s : YawnDetector) :
    (s.is_fatigue_indicated = true ↔
      s.consecutive_yawns_alert ≤
        s.recent_yawns.countP
          (fun f : ℕ => decide ((s.frame_number : ℤ) - (f : ℤ) < 90))) ∧
    ((∀ f : ℕ, f ∈ s.recent_yawns → 90 ≤ (s.frame_number : ℤ) - (f : ℤ)) →
      0 < s.consecutive_yawns_alert → s.is_fatigue_indicated = false) := by
  constructor
  · simp [YawnDetector.is_fatigue_indicated]
  · intro hall hpos
    have hcount : s.recent_yawns.countP
        (fun f : ℕ => decide ((s.frame_number : ℤ) - (f : ℤ) < 90)) = 0 := by
      rw [List.countP_eq_zero]
      intro f hf
      have h9 := hall f hf
      simp only [decide_eq_true_eq]
      omega
    simp only [YawnDetector.is_fatigue_indicated, hcount,
      decide_eq_false_iff_not]
    omega

/-- Concrete yawn-detector state whose one recorded yawn has aged out of
the 90-frame window. -/
abbrev yawnC6 : YawnDetector :=
  { mar_threshold := 1, min_yawn_frames := 2, history_size := 30,
    consecutive_yawns_alert := 1, mar_history := [], yawn_frame_count := 0,
    total_yawns := 1, is_yawning := false, recent_yawns := [1],
    frame_number := 100 }

/-- Witness for C6 at a concrete aged-out state. -/
theorem C6_fatigue_window_w :
    (∀ f : ℕ, f ∈ yawnC6.recent_yawns → 90 ≤ (yawnC6.frame_number : ℤ) - (f : ℤ)) ∧
    0 < yawnC6.consecutive_yawns_alert ∧
    yawnC6.is_fatigue_indicated = false :=
  ⟨by decide, by decide,
   (C6_fatigue_window yawnC6).2 (by decide) (by decide)⟩

/-! ## Ratio-geometry lemmas -/

/-- C7: `calculate_ear` and `calculate_mar` return exactly 0.0 whenever
the horizontal point-pair distance of the formula in effect is exactly
zero — the guarded division is unreachable in that case, for every input
point set. -/
theorem C7_zero_horizontal_guard :
    (∀ eye : Fin 6 → ℝ × ℝ, euclidean (eye 0) (eye 3) = 0 → calculate_ear eye = 0) ∧
    (∀ m : List (ℝ × ℝ), marHorizontal m = 0 → calculate_mar m = 0) := by
  constructor
  · intro eye h
    simp [calculate_ear, h]
  · intro m h
    by_cases hlen : 20 ≤ m.length
    · have h2 : euclidean (m.getD 12 (0, 0)) (m.getD 16 (0, 0)) = 0 := by
        have h3 := h
        rw [marHorizontal, if_pos hlen] at h3
        exact h3
      simp only [calculate_mar, if_pos hlen]
      rw [if_pos h2]
    · have h2 : euclidean (m.getD 0 (0, 0)) (m.getD 6 (0, 0)) = 0 := by
        have h3 := h
        rw [marHorizontal, if_neg hlen] at h3
        exact h3
      simp only [calculate_mar, if_neg hlen]
      rw [if_pos h2]

/-- Witness for C7 at degenerate all-coincident geometry. -/
theorem C7_zero_horizontal_guard_w :
    (euclidean ((0 : ℝ), (0 : ℝ)) ((0 : ℝ), (0 : ℝ)) = 0 ∧
      calculate_ear (fun _ => ((0 : ℝ), (0 : ℝ))) = 0) ∧
    (marHorizontal ([] : List (ℝ × ℝ)) = 0 ∧
      calculate_mar ([] : List (ℝ × ℝ)) = 0) := by
  have h0 : euclidean ((0 : ℝ), (0 : ℝ)) ((0 : ℝ), (0 : ℝ)) = 0 := by
    simp [euclidean]
  have h1 : marHorizontal ([] : List (ℝ × ℝ)) = 0 := by
    rw [marHorizontal]
    norm_num
    exact h0
  exact ⟨⟨h0, C7_zero_horizontal_guard.1 (fun _ => ((0 : ℝ), (0 : ℝ))) h0⟩,
         ⟨h1, C7_zero_horizontal_guard.2 ([] : List (ℝ × ℝ)) h1⟩⟩

/-! ## Alert-dispatcher theorems -/

/-- Concrete alert dispatcher with sound disabled: cooldown 3 s, idle,
timestamp 0, zero alerts. -/
abbrev alertNoSound : AlertSystem :=
  { sound_enabled := false, visual_enabled := true, cooldown_seconds := 3,
    is_alerting := false, last_alert_time := 0, alert_count := 0 }

/-- Concrete alert dispatcher with sound enabled, same remaining fields. -/
abbrev alertSound : AlertSystem :=
  { sound_enabled := true, visual_enabled := true, cooldown_seconds := 3,
    is_alerting := false, last_alert_time := 0, alert_count := 0 }

/-- Counterexample to C2 as stated.  First scenario: a fully successful
`trigger_alert` (cooldown elapsed, idle) on a dispatcher with sound
disabled returns true and increments the count, yet starts no background
playback task.  Second scenario: two `trigger_alert` calls 2 s apart with
a 3 s cooldown where the first call itself fails on cooldown — the second
call succeeds and the count increases, because the cooldown is measured
from the last recorded trigger timestamp, which the failed first call did
not move. -/
theorem C2_counterexample :
    ((¬ (10 : ℚ) - alertNoSound.last_alert_time < alertNoSound.cooldown_seconds) ∧
      alertNoSound.is_alerting = false ∧
      (alertNoSound.trigger_alert 10).1.triggered = true ∧
      (alertNoSound.trigger_alert 10).2.alert_count = alertNoSound.alert_count + 1 ∧
      (alertNoSound.trigger_alert 10).1.thread_started = false) ∧
    (((4 : ℚ) - 2 < alertSound.cooldown_seconds) ∧
      (alertSound.trigger_alert 2).1.triggered = false ∧
      ((alertSound.trigger_alert 2).2.trigger_alert 4).1.triggered = true ∧
      ((alertSound.trigger_alert 2).2.trigger_alert 4).2.alert_count =
        alertSound.alert_count + 1) := by
  have e1 : ¬ (10 : ℚ) - 0 < 3 := by norm_num
  have e2 : (2 : ℚ) - 0 < 3 := by norm_num
  have e3 : ¬ (4 : ℚ) - 0 < 3 := by norm_num
  have e4 : (4 : ℚ) - 2 < 3 := by norm_num
  refine ⟨⟨e1, rfl, ?_, ?_, ?_⟩, ⟨e4, ?_, ?_, ?_⟩⟩
  all_goals
    simp only [AlertSystem.trigger_alert, alertNoSound, alertSound,
      if_neg e1, if_pos e2, if_neg e3]
  all_goals rfl

/-- C2 as amended: `trigger_alert` returns false with no state change and
no playback task when the elapsed time since the last recorded alert
timestamp is below the cooldown or the dispatcher is already alerting;
otherwise it returns true, moves to the alerting state, records the
timestamp, increments the count, and starts the background playback task
exactly when sound is enabled.  Of two calls within `cooldown_seconds` of
each other where the first succeeds, the second returns false and the
count does not increase. -/
theorem C2_trigger_cooldown_amended (s : AlertSystem) (now now2 : ℚ) :
    ((now - s.last_alert_time < s.cooldown_seconds ∨ s.is_alerting = true) →
      (s.trigger_alert now).1.triggered = false ∧
      (s.trigger_alert now).1.thread_started = false ∧
      (s.trigger_alert now).2 = s) ∧
    (¬ now - s.last_alert_time < s.cooldown_seconds → s.is_alerting = false →
      (s.trigger_alert now).1.triggered = true ∧
      (s.trigger_alert now).2.is_alerting = true ∧
      (s.trigger_alert now).2.last_alert_time = now ∧
      (s.trigger_alert now).2.alert_count = s.alert_count + 1 ∧
      (s.trigger_alert now).1.thread_started = s.sound_enabled) ∧
    ((s.trigger_alert now).1.triggered = true →
      now2 - now < s.cooldown_seconds →
      ((s.trigger_alert now).2.trigger_alert now2).1.triggered = false ∧
      ((s.trigger_alert now).2.trigger_alert now2).2.alert_count =
        (s.trigger_alert now).2.alert_count) := by
  by_cases h1 : now - s.last_alert_time < s.cooldown_seconds
  · refine ⟨fun _ => ?_, fun hcontra => absurd h1 hcontra, fun htrig => ?_⟩
    · simp [AlertSystem.trigger_alert, h1]
    · exfalso
      have : (s.trigger_alert now).1.triggered = false := by
        simp [AlertSystem.trigger_alert, h1]
      rw [htrig] at this
      exact absurd this (by simp)
  · by_cases h2 : s.is_alerting = true
    · refine ⟨fun _ => ?_, fun _ hcontra => absurd h2 (by simp [hcontra]),
        fun htrig => ?_⟩
      · simp [AlertSystem.trigger_alert, h1, h2]
      · exfalso
        have : (s.trigger_alert now).1.triggered = false := by
          simp [AlertSystem.trigger_alert, h1, h2]
        rw [htrig] at this
        exact absurd this (by simp)
    · have hstep : (s.trigger_alert now).2 =
          { s with is_alerting := true, last_alert_time := now,
                   alert_count := s.alert_count + 1 } := by
        simp [AlertSystem.trigger_alert, h1, h2]
      refine ⟨fun hor => ?_, fun _ _ => ?_, fun _ hcool => ?_⟩
      · rcases hor with hca | hcb
        · exact absurd hca h1
        · exact absurd hcb h2
      · refine ⟨?_, ?_, ?_, ?_, ?_⟩ <;>
          simp [AlertSystem.trigger_alert, h1, h2]
      · rw [hstep]
        have hcool2 : now2 - now < s.cooldown_seconds := hcool
        constructor <;>
          simp [AlertSystem.trigger_alert, hcool2]

/-- Witness for the amended C2, exercising the blocked case, the
successful case, and the two-calls-within-cooldown case. -/
theorem C2_trigger_cooldown_amended_w :
    (((1 : ℚ) - alertSound.last_alert_time < alertSound.cooldown_seconds ∨
        alertSound.is_alerting = true) ∧
      (alertSound.trigger_alert 1).1.triggered = false ∧
      (alertSound.trigger_alert 1).2 = alertSound) ∧
    ((¬ (5 : ℚ) - alertSound.last_alert_time < alertSound.cooldown_seconds) ∧
      alertSound.is_alerting = false ∧
      (alertSound.trigger_alert 5).1.triggered = true ∧
      (alertSound.trigger_alert 5).2.alert_count = alertSound.alert_count + 1 ∧
      (alertSound.trigger_alert 5).1.thread_started = alertSound.sound_enabled) ∧
    ((alertSound.trigger_alert 5).1.triggered = true ∧
      ((6 : ℚ) - 5 < alertSound.cooldown_seconds) ∧
      ((alertSound.trigger_alert 5).2.trigger_alert 6).1.triggered = false ∧
      ((alertSound.trigger_alert 5).2.trigger_alert 6).2.alert_count =
        (alertSound.trigger_alert 5).2.alert_count) := by
  have hb : (1 : ℚ) - alertSound.last_alert_time < alertSound.cooldown_seconds := by
    norm_num
  have hs : ¬ (5 : ℚ) - alertSound.last_alert_time < alertSound.cooldown_seconds := by
    norm_num
  have hc : (6 : ℚ) - 5 < alertSound.cooldown_seconds := by norm_num
  obtain ⟨wa, wb, wc⟩ := C2_trigger_cooldown_amended alertSound 1 0
  obtain ⟨xa, xb, xc⟩ := C2_trigger_cooldown_amended alertSound 5 6
  obtain ⟨ha1, ha2, ha3⟩ := wa (Or.inl hb)
  obtain ⟨hb1, hb2, hb3, hb4, hb5⟩ := xb hs rfl
  obtain ⟨hc1, hc2⟩ := xc hb1 hc
  exact ⟨⟨Or.inl hb, ha1, ha3⟩, ⟨hs, rfl, hb1, hb4, hb5⟩, ⟨hb1, hc, hc1, hc2⟩⟩

/-! ## Orchestrator theorems -/

/-- C1: on every processed frame with landmarks found, the fused
drowsiness score equals `min(eye score + 30·fatigue + 20·head-down, 100)`
computed from the eye tracker's and yawn detector's post-frame state and
the frame's head pose; `is_drowsy` is the eye tracker's drowsiness OR
head-down; `is_fatigued` is the yawn detector's fatigue indication. -/
theorem C1_fusion (d : DrowsinessDetector) (o : FrameObs) (now : ℚ) :
    (d.process_frame (some o) now).1.drowsiness_score =
      min ((d.process_frame (some o) now).2.eye_tracker.get_drowsiness_score +
        (if (d.process_frame (some o) now).2.yawn_detector.is_fatigue_indicated = true
          then (30 : ℚ) else 0) +
        (if o.head.is_head_down = true then (20 : ℚ) else 0)) 100 ∧
    (d.process_frame (some o) now).1.is_drowsy =
      ((d.process_frame (some o) now).2.eye_tracker.is_drowsy ||
        o.head.is_head_down) ∧
    (d.process_frame (some o) now).1.is_fatigued =
      (d.process_frame (some o) now).2.yawn_detector.is_fatigue_indicated :=
  ⟨rfl, rfl, rfl⟩

/-- C9: a frame in which the landmark detector finds no face returns
early with the default result — face not detected, all per-frame metrics
neutral/zero, all flags false — and leaves the eye tracker, yawn
detector, head pose estimator and alert dispatcher untouched. -/
theorem C9_no_face_early_return (d : DrowsinessDetector) (now : ℚ) :
    (d.process_frame none now).1 = defaultResult ∧
    (d.process_frame none now).1.face_detected = false ∧
    (d.process_frame none now).1.ear = 0 ∧
    (d.process_frame none now).1.left_ear = 0 ∧
    (d.process_frame none now).1.right_ear = 0 ∧
    (d.process_frame none now).1.mar = 0 ∧
    (d.process_frame none now).1.pitch = 0 ∧
    (d.process_frame none now).1.yaw = 0 ∧
    (d.process_frame none now).1.roll = 0 ∧
    (d.process_frame none now).1.eyes_closed = false ∧
    (d.process_frame none now).1.is_yawning = false ∧
    (d.process_frame none now).1.head_down = false ∧
    (d.process_frame none now).1.head_tilted = false ∧
    (d.process_frame none now).1.is_drowsy = false ∧
    (d.process_frame none now).1.is_fatigued = false ∧
    (d.process_frame none now).1.drowsiness_score = 0 ∧
    (d.process_frame none now).1.blink_count = 0 ∧
    (d.process_frame none now).1.yawn_count = 0 ∧
    (d.process_frame none now).2.eye_tracker = d.eye_tracker ∧
    (d.process_frame none now).2.yawn_detector = d.yawn_detector ∧
    (d.process_frame none now).2.head_pose = d.head_pose ∧
    (d.process_frame none now).2.alert_system = d.alert_system ∧
    (d.process_frame none now).2.frame_count = d.frame_count + 1 :=
  ⟨rfl, rfl, rfl, rfl, rfl, rfl, rfl, rfl, rfl, rfl, rfl, rfl, rfl, rfl, rfl,
   rfl, rfl, rfl, rfl, rfl, rfl, rfl, rfl⟩

end Vigilance
